import Mathlib

/-!
Verification of the salary-statistics script (src/main.py).

The script crawls two job boards (hh.ru and superjob.ru), estimates a salary
for each vacancy listing, and aggregates per-language statistics.  This file
gives a shallow embedding of the script's core functions and proves, or
refutes, the specification claims about them.

Modelling conventions:
* Python integers are `Int`.
* Python `None` (and other falsy sentinel values of an optional field) is
  `Option.none`; Python truthiness of an optional integer is `pyTruthy`.
* Python `int(x)` applied to the exact value of a float expression truncates
  toward zero: `Int.tdiv`.  The float expressions in the script
  (`(a + b) / 2`, `a * 1.2`, `b * 0.8`) are modelled by the exact rationals
  `(a + b) / 2`, `6a / 5`, `4b / 5`; float rounding error is out of scope.
* The HTTP endpoint behind a fetcher is a function from page index to either
  a transport failure or a decoded page; the unbounded `for page in count()`
  loop is run on explicit fuel, `none` meaning the loop is still running
  after `fuel` requests.
* A raised Python exception is an `Except.error` carrying the exception kind.
-/

/-- Kinds of Python exceptions the script can raise or observe:
`raise_for_status` raises `requests.exceptions.HTTPError`; `.json()` on a
malformed body raises a JSON decode error (not a subclass of `HTTPError`);
`salaries_sum / vacancies_processed` raises `ZeroDivisionError`; a missing
dict key raises `KeyError`. -/
inductive PyError where
  | httpError
  | jsonDecodeError
  | zeroDivisionError
  | keyError
deriving DecidableEq, Repr

/-- Python truthiness of an optional integer: `None` and `0` are falsy,
every other integer is truthy. -/
def pyTruthy : Option Int → Bool
  | none => false
  | some n => n != 0

/-- `predict_salary(salary_from, salary_to)` (main.py lines 85-95).
The source tests `if salary_from and salary_to` and its `elif`s with Python
truthiness, so a bound equal to 0 takes the same branch as an absent bound.
`int((salary_from + salary_to) / 2)`, `int(salary_from * 1.2)` and
`int(salary_to * 0.8)` truncate the exact quotients toward zero. -/
def predict_salary (salary_from salary_to : Option Int) : Option Int :=
  if pyTruthy salary_from && pyTruthy salary_to then
    some (Int.tdiv (salary_from.getD 0 + salary_to.getD 0) 2)
  else if pyTruthy salary_from then
    some (Int.tdiv (6 * salary_from.getD 0) 5)
  else if pyTruthy salary_to then
    some (Int.tdiv (4 * salary_to.getD 0) 5)
  else
    none

/-- The `salary` sub-structure of an hh.ru vacancy: fields `currency`,
`from`, `to` (the latter two renamed `from_`, `to_` since `from` is a Lean
keyword).  `from`/`to` may be JSON `null`, hence `Option Int`. -/
structure HHSalary where
  currency : String
  from_ : Option Int
  to_ : Option Int
deriving DecidableEq, Repr

/-- An hh.ru vacancy as consumed by the normalizer: its `salary` field may be
JSON `null` (or another falsy value), modelled by `none`. -/
structure HHVac where
  salary : Option HHSalary
deriving DecidableEq, Repr

/-- `predict_rub_salary_hh(vacancy)` (main.py lines 98-103): read the nested
`salary`; if it is truthy and its currency is `'RUR'`, delegate the bounds to
`predict_salary`; otherwise return `None`. -/
def predict_rub_salary_hh (vacancy : HHVac) : Option Int :=
  match vacancy.salary with
  | some salary =>
      if salary.currency = "RUR" then predict_salary salary.from_ salary.to_
      else none
  | none => none

/-- A superjob.ru vacancy as consumed by the normalizer: flat `currency`,
`payment_from`, `payment_to` fields. -/
structure SJVac where
  currency : String
  payment_from : Option Int
  payment_to : Option Int
deriving DecidableEq, Repr

/-- `predict_rub_salary_sj(vacancy)` (main.py lines 106-110): if the flat
currency is `'rub'`, delegate the two payment bounds to `predict_salary`;
otherwise return `None`. -/
def predict_rub_salary_sj (vacancy : SJVac) : Option Int :=
  if vacancy.currency = "rub" then
    predict_salary vacancy.payment_from vacancy.payment_to
  else none

/-- One decoded page of the hh.ru search endpoint: the `items` array (whose
entries may be falsy, modelled `Option HHVac`), the `found` total-match
count, and the declared `pages` count. -/
structure HHPage where
  items : List (Option HHVac)
  found : Int
  pages : Int
deriving Repr

/-- One decoded page of the superjob.ru search endpoint: the `objects`
array, the `total` match count, and the `more` continuation flag. -/
structure SJPage where
  objects : List (Option SJVac)
  total : Int
  more : Bool
deriving Repr

/-- Body of the `for page in count()` loop of `fetch_hh_vacancies`
(main.py lines 38-50), started at page index `page` with `fuel` loop
iterations allowed.  Returns the list of page indices actually requested and,
when the loop finished within `fuel` iterations, the outcome: either the
exception that escaped (transport failure while requesting some page) or the
full list of yielded `(vacancy, found)` pairs.  The loop requests page
`page`, yields every item paired with that page's `found` count, and breaks
when `page >= page_content['pages'] - 1`. -/
def fetchHHFrom (resp : Nat → Except PyError HHPage) :
    Nat → Nat → List Nat × Option (Except PyError (List (Option HHVac × Int)))
  | 0, _ => ([], none)
  | fuel + 1, page =>
    match resp page with
    | .error e => ([page], some (.error e))
    | .ok r =>
      let ys := r.items.map (fun v => (v, r.found))
      if (page : Int) ≥ r.pages - 1 then
        ([page], some (.ok ys))
      else
        let rest := fetchHHFrom resp fuel (page + 1)
        (page :: rest.1, rest.2.map (fun res => res.map (fun zs => ys ++ zs)))

/-- `fetch_hh_vacancies` run to exhaustion: the loop starts at page 0. -/
def fetch_hh_vacancies (resp : Nat → Except PyError HHPage) (fuel : Nat) :
    List Nat × Option (Except PyError (List (Option HHVac × Int))) :=
  fetchHHFrom resp fuel 0

/-- Body of the `for page in count()` loop of `fetch_sj_vacancies`
(main.py lines 70-82), analogous to `fetchHHFrom`; the loop breaks when
`not page_content['more']`. -/
def fetchSJFrom (resp : Nat → Except PyError SJPage) :
    Nat → Nat → List Nat × Option (Except PyError (List (Option SJVac × Int)))
  | 0, _ => ([], none)
  | fuel + 1, page =>
    match resp page with
    | .error e => ([page], some (.error e))
    | .ok r =>
      let ys := r.objects.map (fun v => (v, r.total))
      if !r.more then
        ([page], some (.ok ys))
      else
        let rest := fetchSJFrom resp fuel (page + 1)
        (page :: rest.1, rest.2.map (fun res => res.map (fun zs => ys ++ zs)))

/-- `fetch_sj_vacancies` run to exhaustion: the loop starts at page 0. -/
def fetch_sj_vacancies (resp : Nat → Except PyError SJPage) (fuel : Nat) :
    List Nat × Option (Except PyError (List (Option SJVac × Int))) :=
  fetchSJFrom resp fuel 0

/-- The hh.ru loop's termination condition at page `q`: the request for `q`
fails (the raised exception also ends the loop), or the page reports
`q >= pages - 1`. -/
def hhStop (resp : Nat → Except PyError HHPage) (q : Nat) : Bool :=
  match resp q with
  | .error _ => true
  | .ok r => decide ((q : Int) ≥ r.pages - 1)

/-- The superjob.ru loop's termination condition at page `q`: the request
fails, or the page reports `more = false`. -/
def sjStop (resp : Nat → Except PyError SJPage) (q : Nat) : Bool :=
  match resp q with
  | .error _ => true
  | .ok r => !r.more

/-- The inner `for vacancy, vacancy_count in fetch_hh_vacancies(...)` loop of
`get_hh_statistics` (main.py lines 129-141): threading the accumulators
`vacancies_processed`, `salaries_sum` and the loop variable `vacancy_count`
through the yielded pairs.  A falsy vacancy is skipped (`if vacancy:`); the
estimate contributes only when truthy (`if approximate_rub_salary:`), so a
present estimate of 0 is dropped. -/
def hhAccumulate :
    List (Option HHVac × Int) → Nat → Int → Int → Nat × Int × Int
  | [], vacancies_processed, salaries_sum, vacancy_count =>
      (vacancies_processed, salaries_sum, vacancy_count)
  | (vacancy, found) :: rest, vacancies_processed, salaries_sum, _ =>
    match vacancy with
    | none => hhAccumulate rest vacancies_processed salaries_sum found
    | some v =>
      let approximate_rub_salary := predict_rub_salary_hh v
      if pyTruthy approximate_rub_salary then
        hhAccumulate rest (vacancies_processed + 1)
          (salaries_sum + approximate_rub_salary.getD 0) found
      else
        hhAccumulate rest vacancies_processed salaries_sum found

/-- The inner loop of `get_sj_statistics` (main.py lines 169-180),
analogous to `hhAccumulate`. -/
def sjAccumulate :
    List (Option SJVac × Int) → Nat → Int → Int → Nat × Int × Int
  | [], vacancies_processed, salaries_sum, vacancy_count =>
      (vacancies_processed, salaries_sum, vacancy_count)
  | (vacancy, found) :: rest, vacancies_processed, salaries_sum, _ =>
    match vacancy with
    | none => sjAccumulate rest vacancies_processed salaries_sum found
    | some v =>
      let approximate_rub_salary := predict_rub_salary_sj v
      if pyTruthy approximate_rub_salary then
        sjAccumulate rest (vacancies_processed + 1)
          (salaries_sum + approximate_rub_salary.getD 0) found
      else
        sjAccumulate rest vacancies_processed salaries_sum found

/-- One row appended to `language_statistics`
(main.py lines 143-150 and 182-189). -/
structure StatRow where
  language : String
  vacancy_count : Int
  vacancies_processed : Nat
  average_rub_salary : Int
deriving DecidableEq, Repr

/-- `get_hh_statistics(languages, ...)` (main.py lines 113-151) over an
endpoint model `resp` (per language, per page) and loop fuel.  `none` means
some crawl was still paginating after `fuel` requests.  After the crawl of a
language, the source computes `salaries_sum / vacancies_processed`
unconditionally (line 142) — when `vacancies_processed` is 0 this raises
`ZeroDivisionError` before the `if vacancies_processed else 0` guard on line
148 is reached; otherwise the row's average is `int(...)`, the truncated
quotient.  An exception abandons the rows accumulated so far. -/
def get_hh_statistics (languages : List String)
    (resp : String → Nat → Except PyError HHPage) (fuel : Nat) :
    Option (Except PyError (List StatRow)) :=
  match languages with
  | [] => some (.ok [])
  | language :: rest =>
    match (fetchHHFrom (resp language) fuel 0).2 with
    | none => none
    | some (.error e) => some (.error e)
    | some (.ok yields) =>
      match hhAccumulate yields 0 0 0 with
      | (vacancies_processed, salaries_sum, vacancy_count) =>
        if vacancies_processed = 0 then some (.error .zeroDivisionError)
        else
          match get_hh_statistics rest resp fuel with
          | none => none
          | some (.error e) => some (.error e)
          | some (.ok rows) =>
            some (.ok (⟨language, vacancy_count, vacancies_processed,
              Int.tdiv salaries_sum (vacancies_processed : Int)⟩ :: rows))

/-- `get_sj_statistics(languages, ...)` (main.py lines 154-190), analogous
to `get_hh_statistics` including the unguarded division on line 181. -/
def get_sj_statistics (languages : List String)
    (resp : String → Nat → Except PyError SJPage) (fuel : Nat) :
    Option (Except PyError (List StatRow)) :=
  match languages with
  | [] => some (.ok [])
  | language :: rest =>
    match (fetchSJFrom (resp language) fuel 0).2 with
    | none => none
    | some (.error e) => some (.error e)
    | some (.ok yields) =>
      match sjAccumulate yields 0 0 0 with
      | (vacancies_processed, salaries_sum, vacancy_count) =>
        if vacancies_processed = 0 then some (.error .zeroDivisionError)
        else
          match get_sj_statistics rest resp fuel with
          | none => none
          | some (.error e) => some (.error e)
          | some (.ok rows) =>
            some (.ok (⟨language, vacancy_count, vacancies_processed,
              Int.tdiv salaries_sum (vacancies_processed : Int)⟩ :: rows))

/-- The language list hard-coded in `main` (main.py lines 220-223). -/
def programming_languages : List String :=
  ["JavaScript", "Python", "Java", "C#", "PHP", "C++", "C", "Ruby", "Go"]

/-- Observable outcome of one process run: whether the two report tables
were printed, how many error messages were logged, and the process exit
code. -/
structure RunOutcome where
  printed_reports : Bool
  logged_errors : Nat
  exit_code : Nat
deriving DecidableEq, Repr

/-- Outcome of `main` when an exception escapes a statistics call
(main.py lines 208, 225-247): the `except requests.exceptions.HTTPError`
clause catches only `HTTPError` and then logs one message and calls
`sys.exit(1)`; every other exception (JSON decode errors,
`ZeroDivisionError`, ...) escapes the `try` and reaches the `@logger.catch`
decorator, which logs it once and suppresses it, so the process ends with
exit code 0.  In both cases the `print` at line 251 is never reached. -/
def runErrorOutcome (e : PyError) : RunOutcome :=
  match e with
  | .httpError => ⟨false, 1, 1⟩
  | _ => ⟨false, 1, 0⟩

/-- `main()` (main.py lines 208-251): run the hh.ru statistics, then the
superjob.ru statistics, and print both tables only when both succeed.
`none` means a crawl was still paginating after `fuel` page requests.
(Named `main_run` because Lean reserves `main` for an `IO` entry point.) -/
def main_run (hhResp : String → Nat → Except PyError HHPage)
    (sjResp : String → Nat → Except PyError SJPage) (fuel : Nat) :
    Option RunOutcome :=
  match get_hh_statistics programming_languages hhResp fuel with
  | none => none
  | some (.error e) => some (runErrorOutcome e)
  | some (.ok _) =>
    match get_sj_statistics programming_languages sjResp fuel with
    | none => none
    | some (.error e) => some (runErrorOutcome e)
    | some (.ok _) => some ⟨true, 0, 0⟩

/-- The `salary` sub-structure of an hh.ru vacancy with dict-key presence
tracked: an outer `none` means the key is missing from the dict (so a lookup
raises `KeyError`), `some none` means the key is present with value `null`. -/
structure HHSalaryDict where
  currency? : Option String
  from? : Option (Option Int)
  to? : Option (Option Int)
deriving DecidableEq, Repr

/-- An hh.ru vacancy dict with key presence tracked: `salary? = none` means
the `'salary'` key is missing; `salary? = some none` means it is present but
falsy (`null` or an empty dict); `salary? = some (some s)` means it holds a
truthy dict `s`. -/
structure HHVacDict where
  salary? : Option (Option HHSalaryDict)
deriving DecidableEq, Repr

/-- `predict_rub_salary_hh` at dict level (main.py lines 98-103), making the
key lookups explicit: `vacancy['salary']` raises `KeyError` when the key is
missing; when the salary dict is truthy, `salary['currency']` is looked up,
and when the currency is `'RUR'`, `salary['from']` and `salary['to']` are
looked up (in that order) as the arguments of `predict_salary`. -/
def predict_rub_salary_hh_dict (vacancy : HHVacDict) :
    Except PyError (Option Int) :=
  match vacancy.salary? with
  | none => .error .keyError
  | some none => .ok none
  | some (some salary) =>
    match salary.currency? with
    | none => .error .keyError
    | some c =>
      if c = "RUR" then
        match salary.from?, salary.to? with
        | none, _ => .error .keyError
        | some _, none => .error .keyError
        | some f, some t => .ok (predict_salary f t)
      else .ok none

/-- A superjob.ru vacancy dict with key presence tracked. -/
structure SJVacDict where
  currency? : Option String
  payment_from? : Option (Option Int)
  payment_to? : Option (Option Int)
deriving DecidableEq, Repr

/-- `predict_rub_salary_sj` at dict level (main.py lines 106-110):
`vacancy['currency']` raises `KeyError` when missing; when it equals
`'rub'`, `vacancy['payment_from']` and `vacancy['payment_to']` are looked up
(in that order) as the arguments of `predict_salary`. -/
def predict_rub_salary_sj_dict (vacancy : SJVacDict) :
    Except PyError (Option Int) :=
  match vacancy.currency? with
  | none => .error .keyError
  | some c =>
    if c = "rub" then
      match vacancy.payment_from?, vacancy.payment_to? with
      | none, _ => .error .keyError
      | some _, none => .error .keyError
      | some f, some t => .ok (predict_salary f t)
    else .ok none

/-- Claim C2, counterexample: the claim says that when both bounds are
present the estimate is `(lower+upper)//2`, so `(0, 100)` should give 50;
the source instead tests the bounds with Python truthiness, treats the
present `0` as absent, and returns `int(100*0.8) = 80`. -/
theorem predict_salary_zero_bound_cex :
    predict_salary (some 0) (some 100) = some 80 ∧
    Int.fdiv (0 + 100) 2 = 50 ∧ (80 : Int) ≠ 50 := by
  decide

/-- Claim C2, amended: for optional nonnegative bounds, `predict_salary`
treats a present bound as contributing only when it is nonzero (truthy):
both nonzero → `(lower+upper)//2`; only the lower nonzero →
`floor(lower*6/5)`; only the upper nonzero → `floor(upper*4/5)`; neither
present-and-nonzero → absent. -/
theorem predict_salary_truthy_cases (a b : Int) (ha : 0 ≤ a) (hb : 0 ≤ b) :
    (a ≠ 0 → b ≠ 0 →
      predict_salary (some a) (some b) = some (Int.fdiv (a + b) 2)) ∧
    (a ≠ 0 →
      predict_salary (some a) none = some (Int.fdiv (6 * a) 5) ∧
      predict_salary (some a) (some 0) = some (Int.fdiv (6 * a) 5)) ∧
    (b ≠ 0 →
      predict_salary none (some b) = some (Int.fdiv (4 * b) 5) ∧
      predict_salary (some 0) (some b) = some (Int.fdiv (4 * b) 5)) ∧
    predict_salary none none = none ∧
    predict_salary (some 0) none = none ∧
    predict_salary none (some 0) = none ∧
    predict_salary (some 0) (some 0) = none := by
  refine ⟨?_, ?_, ?_, by rfl, by rfl, by decide, by decide⟩
  · intro ha' hb'
    rw [Int.fdiv_eq_tdiv (by omega) (by omega)]
    simp [predict_salary, pyTruthy, ha', hb']
  · intro ha'
    rw [Int.fdiv_eq_tdiv (by omega) (by omega)]
    constructor <;> simp [predict_salary, pyTruthy, ha']
  · intro hb'
    rw [Int.fdiv_eq_tdiv (by omega) (by omega)]
    constructor <;> simp [predict_salary, pyTruthy, hb']

/-- Claim C2, witness: the amended cases at the spec's own examples. -/
theorem predict_salary_truthy_cases_witness :
    predict_salary (some 100000) (some 150000) = some (Int.fdiv (100000 + 150000) 2) ∧
    predict_salary (some 100000) none = some (Int.fdiv (6 * 100000) 5) ∧
    predict_salary none (some 80000) = some (Int.fdiv (4 * 80000) 5) ∧
    predict_salary none none = none :=
  ⟨(predict_salary_truthy_cases 100000 150000 (by decide) (by decide)).1
      (by decide) (by decide),
   ((predict_salary_truthy_cases 100000 150000 (by decide) (by decide)).2.1
      (by decide)).1,
   ((predict_salary_truthy_cases 100000 80000 (by decide) (by decide)).2.2.1
      (by decide)).1,
   (predict_salary_truthy_cases 1 1 (by decide) (by decide)).2.2.2.1⟩

/-- Claim C3: a listing whose currency differs from the source's
local-currency marker (`'RUR'` for hh.ru, `'rub'` for superjob.ru) is mapped
to `None` by the normalizer, whatever its salary bounds are. -/
theorem currency_gate_returns_none (chh csj : String) (f t pf pt : Option Int)
    (hhh : chh ≠ "RUR") (hsj : csj ≠ "rub") :
    predict_rub_salary_hh ⟨some ⟨chh, f, t⟩⟩ = none ∧
    predict_rub_salary_sj ⟨csj, pf, pt⟩ = none := by
  constructor
  · simp [predict_rub_salary_hh, hhh]
  · simp [predict_rub_salary_sj, hsj]

/-- Claim C3, witness: the spec's example, currency `'USD'` with bounds
`(1000, 2000)` is excluded by both normalizers. -/
theorem currency_gate_returns_none_witness :
    predict_rub_salary_hh ⟨some ⟨"USD", some 1000, some 2000⟩⟩ = none ∧
    predict_rub_salary_sj ⟨"USD", some 1000, some 2000⟩ = none :=
  currency_gate_returns_none "USD" "USD" (some 1000) (some 2000)
    (some 1000) (some 2000) (by decide) (by decide)

/-- Claim C4: a bound field that is present but `null` behaves exactly like
an absent bound: with matching currency each normalizer returns what
`predict_salary` returns on the corresponding one-sided (or empty) pair, and
the `null` side is never fed into the both-present branch as the integer 0 —
the one-sided adjustment formulas apply instead. -/
theorem null_bound_treated_as_absent (f t : Option Int) (v : Int)
    (hv : v ≠ 0) :
    predict_rub_salary_hh ⟨some ⟨"RUR", none, t⟩⟩ = predict_salary none t ∧
    predict_rub_salary_hh ⟨some ⟨"RUR", f, none⟩⟩ = predict_salary f none ∧
    predict_rub_salary_sj ⟨"rub", none, t⟩ = predict_salary none t ∧
    predict_rub_salary_sj ⟨"rub", f, none⟩ = predict_salary f none ∧
    predict_salary none none = none ∧
    predict_salary none (some v) = some (Int.tdiv (4 * v) 5) ∧
    predict_salary (some v) none = some (Int.tdiv (6 * v) 5) := by
  refine ⟨by rfl, by rfl, by rfl, by rfl, by rfl, ?_, ?_⟩ <;>
    simp [predict_salary, pyTruthy, hv]

/-- Claim C4, witness: the null-as-absent equations at concrete bounds. -/
theorem null_bound_treated_as_absent_witness :
    predict_rub_salary_hh ⟨some ⟨"RUR", none, some 80000⟩⟩ =
      predict_salary none (some 80000) ∧
    predict_salary none (some 80000) = some (Int.tdiv (4 * 80000) 5) :=
  ⟨(null_bound_treated_as_absent (some 1) (some 80000) 80000 (by decide)).1,
   (null_bound_treated_as_absent (some 1) (some 80000) 80000
      (by decide)).2.2.2.2.2.1⟩

/-- Claim C10: the normalizers are total exactly under a key-presence
precondition.  `predict_rub_salary_hh` raises `KeyError` when the listing
lacks the `'salary'` key, or when a truthy salary dict lacks `'currency'`,
or when the currency matches `'RUR'` and `'from'` or `'to'` is missing;
`predict_rub_salary_sj` raises `KeyError` when `'currency'` is missing, or
when it equals `'rub'` and `'payment_from'` or `'payment_to'` is missing.
When every key the function looks up is present, both normalizers return a
value without error. -/
theorem normalizer_key_presence :
    (∀ v : HHVacDict, v.salary? = none →
       predict_rub_salary_hh_dict v = .error .keyError) ∧
    (∀ (v : HHVacDict) (s : HHSalaryDict), v.salary? = some (some s) →
       s.currency? = none →
       predict_rub_salary_hh_dict v = .error .keyError) ∧
    (∀ (v : HHVacDict) (s : HHSalaryDict), v.salary? = some (some s) →
       s.currency? = some "RUR" → (s.from? = none ∨ s.to? = none) →
       predict_rub_salary_hh_dict v = .error .keyError) ∧
    (∀ v : SJVacDict, v.currency? = none →
       predict_rub_salary_sj_dict v = .error .keyError) ∧
    (∀ v : SJVacDict, v.currency? = some "rub" →
       (v.payment_from? = none ∨ v.payment_to? = none) →
       predict_rub_salary_sj_dict v = .error .keyError) ∧
    (∀ v : HHVacDict, v.salary? ≠ none →
       (∀ s, v.salary? = some (some s) →
          s.currency? ≠ none ∧
          (s.currency? = some "RUR" → s.from? ≠ none ∧ s.to? ≠ none)) →
       ∃ r, predict_rub_salary_hh_dict v = .ok r) ∧
    (∀ v : SJVacDict, v.currency? ≠ none →
       (v.currency? = some "rub" →
          v.payment_from? ≠ none ∧ v.payment_to? ≠ none) →
       ∃ r, predict_rub_salary_sj_dict v = .ok r) := by
  refine ⟨?_, ?_, ?_, ?_, ?_, ?_, ?_⟩
  · intro v h
    simp [predict_rub_salary_hh_dict, h]
  · intro v s h hc
    simp [predict_rub_salary_hh_dict, h, hc]
  · intro v s h hc hmiss
    rcases hmiss with hm | hm <;>
      rcases hf : s.from? with _ | f <;> rcases ht : s.to? with _ | t <;>
      simp_all [predict_rub_salary_hh_dict, h, hc]
  · intro v h
    simp [predict_rub_salary_sj_dict, h]
  · intro v hc hmiss
    rcases hmiss with hm | hm <;>
      rcases hf : v.payment_from? with _ | f <;>
      rcases ht : v.payment_to? with _ | t <;>
      simp_all [predict_rub_salary_sj_dict, hc]
  · intro v h1 h2
    rcases hv : v.salary? with _ | os
    · exact absurd hv h1
    rcases os with _ | s
    · exact ⟨none, by simp [predict_rub_salary_hh_dict, hv]⟩
    obtain ⟨hcne, himp⟩ := h2 s hv
    rcases hc : s.currency? with _ | c
    · exact absurd hc hcne
    by_cases hR : c = "RUR"
    · subst hR
      obtain ⟨hfne, htne⟩ := himp hc
      rcases hf : s.from? with _ | f
      · exact absurd hf hfne
      rcases ht : s.to? with _ | t
      · exact absurd ht htne
      exact ⟨predict_salary f t,
        by simp [predict_rub_salary_hh_dict, hv, hc, hf, ht]⟩
    · exact ⟨none, by simp [predict_rub_salary_hh_dict, hv, hc, hR]⟩
  · intro v h1 h2
    rcases hc : v.currency? with _ | c
    · exact absurd hc h1
    by_cases hR : c = "rub"
    · subst hR
      obtain ⟨hfne, htne⟩ := h2 hc
      rcases hf : v.payment_from? with _ | f
      · exact absurd hf hfne
      rcases ht : v.payment_to? with _ | t
      · exact absurd ht htne
      exact ⟨predict_salary f t,
        by simp [predict_rub_salary_sj_dict, hc, hf, ht]⟩
    · exact ⟨none, by simp [predict_rub_salary_sj_dict, hc, hR]⟩

/-- Claim C10, witness: the error and totality cases at concrete dicts. -/
theorem normalizer_key_presence_witness :
    predict_rub_salary_hh_dict ⟨none⟩ = .error .keyError ∧
    predict_rub_salary_hh_dict ⟨some (some ⟨some "RUR", none, some (some 2)⟩)⟩ =
      .error .keyError ∧
    predict_rub_salary_sj_dict ⟨none, some (some 1), some (some 2)⟩ =
      .error .keyError ∧
    (∃ r, predict_rub_salary_hh_dict
      ⟨some (some ⟨some "RUR", some (some 1), some (some 2)⟩)⟩ = .ok r) ∧
    (∃ r, predict_rub_salary_sj_dict
      ⟨some "USD", none, none⟩ = .ok r) :=
  ⟨normalizer_key_presence.1 ⟨none⟩ rfl,
   normalizer_key_presence.2.2.1 ⟨some (some ⟨some "RUR", none, some (some 2)⟩)⟩
     ⟨some "RUR", none, some (some 2)⟩ rfl rfl (Or.inl rfl),
   normalizer_key_presence.2.2.2.1 ⟨none, some (some 1), some (some 2)⟩ rfl,
   normalizer_key_presence.2.2.2.2.2.1
     ⟨some (some ⟨some "RUR", some (some 1), some (some 2)⟩)⟩
     (by decide)
     (by intro s hs; cases hs; exact ⟨by decide, fun _ => ⟨by decide, by decide⟩⟩),
   normalizer_key_presence.2.2.2.2.2.2 ⟨some "USD", none, none⟩ (by decide)
     (fun h => absurd h (by decide))⟩

/-- Claim C1: with a language whose crawl yields no processed listing — here
an endpoint answering every page with an empty listing array — both
statistics functions fail: `salaries_sum / vacancies_processed` on
main.py lines 142 and 181 is evaluated before the `if vacancies_processed`
guard and raises `ZeroDivisionError`, so no statistic row with average 0 is
emitted; in a full run the exception escapes the `except HTTPError` clause,
is swallowed by `@logger.catch`, and the process exits 0 without a report. -/
theorem zero_processed_division_crash :
    get_hh_statistics ["Go"] (fun _ _ => .ok ⟨[], 0, 1⟩) 3 =
      some (.error .zeroDivisionError) ∧
    get_sj_statistics ["Go"] (fun _ _ => .ok ⟨[], 0, false⟩) 3 =
      some (.error .zeroDivisionError) ∧
    main_run (fun _ _ => .ok ⟨[], 0, 1⟩) (fun _ _ => .ok ⟨[], 0, false⟩) 3 =
      some ⟨false, 1, 0⟩ :=
  ⟨rfl, rfl, rfl⟩

/-- Helper: a nonempty run of the hh.ru loop requests its start page first. -/
lemma fetchHHFrom_head (resp : Nat → Except PyError HHPage) (fuel page : Nat)
    (h : 0 < fuel) : (fetchHHFrom resp fuel page).1.head? = some page := by
  cases fuel with
  | zero => omega
  | succ n =>
    simp only [fetchHHFrom]
    cases resp page with
    | error e => rfl
    | ok r =>
      by_cases hc : (page : Int) ≥ r.pages - 1 <;> simp [hc]

/-- Helper: a nonempty run of the superjob.ru loop requests its start page
first. -/
lemma fetchSJFrom_head (resp : Nat → Except PyError SJPage) (fuel page : Nat)
    (h : 0 < fuel) : (fetchSJFrom resp fuel page).1.head? = some page := by
  cases fuel with
  | zero => omega
  | succ n =>
    simp only [fetchSJFrom]
    cases resp page with
    | error e => rfl
    | ok r =>
      by_cases hc : r.more = false <;> simp [hc]

/-- Helper: every page the hh.ru loop requests lies at or after the start
page, and the loop's termination condition is false at every page strictly
between the start page and a requested page. -/
lemma fetchHHFrom_requested_sound (resp : Nat → Except PyError HHPage) :
    ∀ fuel page p, p ∈ (fetchHHFrom resp fuel page).1 →
      page ≤ p ∧ ∀ q, page ≤ q → q < p → hhStop resp q = false := by
  intro fuel
  induction fuel with
  | zero =>
    intro page p hp
    simp [fetchHHFrom] at hp
  | succ n ih =>
    intro page p hp
    simp only [fetchHHFrom] at hp
    rcases hr : resp page with e | r
    · rw [hr] at hp
      simp at hp
      subst hp
      exact ⟨le_refl _, fun q h1 h2 => by omega⟩
    · rw [hr] at hp
      by_cases hc : (page : Int) ≥ r.pages - 1
      · simp [hc] at hp
        subst hp
        exact ⟨le_refl _, fun q h1 h2 => by omega⟩
      · simp [hc] at hp
        rcases hp with rfl | hp
        · exact ⟨le_refl _, fun q h1 h2 => by omega⟩
        · obtain ⟨h1, h2⟩ := ih (page + 1) p hp
          refine ⟨by omega, fun q hq1 hq2 => ?_⟩
          rcases Nat.eq_or_lt_of_le hq1 with rfl | hq
          · simp [hhStop, hr]
            omega
          · exact h2 q (by omega) hq2

/-- Helper: every page the superjob.ru loop requests lies at or after the
start page, and the termination condition is false strictly before a
requested page. -/
lemma fetchSJFrom_requested_sound (resp : Nat → Except PyError SJPage) :
    ∀ fuel page p, p ∈ (fetchSJFrom resp fuel page).1 →
      page ≤ p ∧ ∀ q, page ≤ q → q < p → sjStop resp q = false := by
  intro fuel
  induction fuel with
  | zero =>
    intro page p hp
    simp [fetchSJFrom] at hp
  | succ n ih =>
    intro page p hp
    simp only [fetchSJFrom] at hp
    rcases hr : resp page with e | r
    · rw [hr] at hp
      simp at hp
      subst hp
      exact ⟨le_refl _, fun q h1 h2 => by omega⟩
    · rw [hr] at hp
      by_cases hc : r.more = false
      · simp [hc] at hp
        subst hp
        exact ⟨le_refl _, fun q h1 h2 => by omega⟩
      · have hm : r.more = true := by revert hc; cases r.more <;> simp
        simp [hm] at hp
        rcases hp with rfl | hp
        · exact ⟨le_refl _, fun q h1 h2 => by omega⟩
        · obtain ⟨h1, h2⟩ := ih (page + 1) p hp
          refine ⟨by omega, fun q hq1 hq2 => ?_⟩
          rcases Nat.eq_or_lt_of_le hq1 with rfl | hq
          · simp [sjStop, hr, hm]
          · exact h2 q (by omega) hq2

/-- Helper: if the hh.ru termination condition holds at some page `n`
reachable within the remaining fuel, the loop finishes and requests at most
the pages up to `n`. -/
lemma fetchHHFrom_stop_terminates (resp : Nat → Except PyError HHPage) :
    ∀ fuel page n, hhStop resp n = true → page ≤ n → n < page + fuel →
      (∃ res, (fetchHHFrom resp fuel page).2 = some res) ∧
      (fetchHHFrom resp fuel page).1.length + page ≤ n + 1 := by
  intro fuel
  induction fuel with
  | zero =>
    intro page n _ h1 h2
    omega
  | succ m ih =>
    intro page n hstop h1 h2
    rcases hr : resp page with e | r
    · refine ⟨⟨.error e, by simp [fetchHHFrom, hr]⟩, ?_⟩
      simp [fetchHHFrom, hr]
      omega
    · by_cases hc : (page : Int) ≥ r.pages - 1
      · refine ⟨⟨.ok (r.items.map (fun v => (v, r.found))),
          by simp [fetchHHFrom, hr, hc]⟩, ?_⟩
        simp [fetchHHFrom, hr, hc]
        omega
      · have hpn : page ≠ n := by
          intro h
          subst h
          simp [hhStop, hr] at hstop
          omega
        obtain ⟨⟨res, hres⟩, hlen⟩ := ih (page + 1) n hstop (by omega) (by omega)
        constructor
        · exact ⟨res.map (fun zs => (r.items.map (fun v => (v, r.found))) ++ zs),
            by simp [fetchHHFrom, hr, hc, hres]⟩
        · simp [fetchHHFrom, hr, hc]
          omega

/-- Helper: if the superjob.ru termination condition holds at some page `n`
reachable within the remaining fuel, the loop finishes and requests at most
the pages up to `n`. -/
lemma fetchSJFrom_stop_terminates (resp : Nat → Except PyError SJPage) :
    ∀ fuel page n, sjStop resp n = true → page ≤ n → n < page + fuel →
      (∃ res, (fetchSJFrom resp fuel page).2 = some res) ∧
      (fetchSJFrom resp fuel page).1.length + page ≤ n + 1 := by
  intro fuel
  induction fuel with
  | zero =>
    intro page n _ h1 h2
    omega
  | succ m ih =>
    intro page n hstop h1 h2
    rcases hr : resp page with e | r
    · refine ⟨⟨.error e, by simp [fetchSJFrom, hr]⟩, ?_⟩
      simp [fetchSJFrom, hr]
      omega
    · by_cases hc : r.more = false
      · refine ⟨⟨.ok (r.objects.map (fun v => (v, r.total))),
          by simp [fetchSJFrom, hr, hc]⟩, ?_⟩
        simp [fetchSJFrom, hr, hc]
        omega
      · have hm : r.more = true := by revert hc; cases r.more <;> simp
        have hpn : page ≠ n := by
          intro h
          subst h
          simp [sjStop, hr, hm] at hstop
        obtain ⟨⟨res, hres⟩, hlen⟩ := ih (page + 1) n hstop (by omega) (by omega)
        constructor
        · exact ⟨res.map (fun zs => (r.objects.map (fun v => (v, r.total))) ++ zs),
            by simp [fetchSJFrom, hr, hm, hres]⟩
        · simp [fetchSJFrom, hr, hm]
          omega

/-- An adversarial hh.ru endpoint whose declared page count keeps growing:
the answer for page `n` reports `pages = n + 2`, so the loop's break
condition `page >= pages - 1` is never true. -/
def hhGrowing : Nat → Except PyError HHPage :=
  fun n => .ok ⟨[], 0, (n : Int) + 2⟩

/-- An adversarial superjob.ru endpoint whose `more` flag is always true
while it declares zero total matches. -/
def sjAlwaysMore : Nat → Except PyError SJPage :=
  fun _ => .ok ⟨[], 0, true⟩

/-- Helper: against `hhGrowing` the hh.ru loop never finishes, whatever the
fuel. -/
lemma hhGrowing_never_stops :
    ∀ fuel page, (fetchHHFrom hhGrowing fuel page).2 = none ∧
      (fetchHHFrom hhGrowing fuel page).1.length = fuel := by
  intro fuel
  induction fuel with
  | zero =>
    intro page
    simp [fetchHHFrom]
  | succ n ih =>
    intro page
    have hc : ¬ ((page : Int) ≥ ((page : Int) + 2) - 1) := by omega
    simp [fetchHHFrom, hhGrowing, hc, (ih (page + 1)).1, (ih (page + 1)).2]

/-- Helper: against `sjAlwaysMore` the superjob.ru loop never finishes,
whatever the fuel. -/
lemma sjAlwaysMore_never_stops :
    ∀ fuel page, (fetchSJFrom sjAlwaysMore fuel page).2 = none ∧
      (fetchSJFrom sjAlwaysMore fuel page).1.length = fuel := by
  intro fuel
  induction fuel with
  | zero =>
    intro page
    simp [fetchSJFrom]
  | succ n ih =>
    intro page
    simp [fetchSJFrom, sjAlwaysMore, (ih (page + 1)).1, (ih (page + 1)).2]

/-- A well-behaved hh.ru endpoint declaring 2 total pages on every answer. -/
def hhTwoPages : Nat → Except PyError HHPage :=
  fun _ => .ok ⟨[], 7, 2⟩

/-- A well-behaved superjob.ru endpoint whose first page already reports
`more = false`. -/
def sjOnePage : Nat → Except PyError SJPage :=
  fun _ => .ok ⟨[], 3, false⟩

/-- Claim C5: each fetcher requests page 0 first; no page strictly beyond a
page satisfying the loop's termination condition is ever requested; and
against an endpoint declaring 2 total pages the hh.ru fetcher requests
exactly pages 0 and 1 (so no index >= 2) and yields exactly the listings of
those two pages. -/
theorem fetch_page_zero_first_and_stop :
    (∀ (resp : Nat → Except PyError HHPage) (fuel : Nat), 0 < fuel →
       (fetch_hh_vacancies resp fuel).1.head? = some 0) ∧
    (∀ (resp : Nat → Except PyError SJPage) (fuel : Nat), 0 < fuel →
       (fetch_sj_vacancies resp fuel).1.head? = some 0) ∧
    (∀ (resp : Nat → Except PyError HHPage) (fuel q p : Nat),
       hhStop resp q = true → p ∈ (fetch_hh_vacancies resp fuel).1 → p ≤ q) ∧
    (∀ (resp : Nat → Except PyError SJPage) (fuel q p : Nat),
       sjStop resp q = true → p ∈ (fetch_sj_vacancies resp fuel).1 → p ≤ q) ∧
    (∀ (resp : Nat → Except PyError HHPage) (r0 r1 : HHPage) (fuel : Nat),
       resp 0 = .ok r0 → resp 1 = .ok r1 →
       r0.pages = 2 → r1.pages = 2 → 2 ≤ fuel →
       (fetch_hh_vacancies resp fuel).1 = [0, 1] ∧
       (fetch_hh_vacancies resp fuel).2 = some (.ok
         (r0.items.map (fun v => (v, r0.found)) ++
          r1.items.map (fun v => (v, r1.found))))) := by
  refine ⟨?_, ?_, ?_, ?_, ?_⟩
  · intro resp fuel h
    exact fetchHHFrom_head resp fuel 0 h
  · intro resp fuel h
    exact fetchSJFrom_head resp fuel 0 h
  · intro resp fuel q p hstop hp
    by_contra hle
    have hq : q < p := by omega
    obtain ⟨_, hall⟩ := fetchHHFrom_requested_sound resp fuel 0 p hp
    have := hall q (Nat.zero_le q) hq
    rw [this] at hstop
    exact Bool.false_ne_true hstop
  · intro resp fuel q p hstop hp
    by_contra hle
    have hq : q < p := by omega
    obtain ⟨_, hall⟩ := fetchSJFrom_requested_sound resp fuel 0 p hp
    have := hall q (Nat.zero_le q) hq
    rw [this] at hstop
    exact Bool.false_ne_true hstop
  · intro resp r0 r1 fuel h0 h1 hp0 hp1 hfuel
    obtain ⟨f, rfl⟩ : ∃ f, fuel = f + 2 := ⟨fuel - 2, by omega⟩
    have hc0 : ¬ ((0 : Int) ≥ r0.pages - 1) := by rw [hp0]; omega
    have hc1 : (1 : Int) ≥ r1.pages - 1 := by rw [hp1]; omega
    constructor <;>
      simp [fetch_hh_vacancies, fetchHHFrom, Except.map, h0, h1, hc0, hc1]

/-- Claim C5, witness: the conjuncts at the concrete 2-page hh.ru endpoint
and 1-page superjob.ru endpoint. -/
theorem fetch_page_zero_first_and_stop_witness :
    (fetch_hh_vacancies hhTwoPages 2).1.head? = some 0 ∧
    (fetch_sj_vacancies sjOnePage 2).1.head? = some 0 ∧
    (1 : Nat) ≤ 1 ∧ (0 : Nat) ≤ 0 ∧
    (fetch_hh_vacancies hhTwoPages 2).1 = [0, 1] :=
  ⟨fetch_page_zero_first_and_stop.1 hhTwoPages 2 (by decide),
   fetch_page_zero_first_and_stop.2.1 sjOnePage 2 (by decide),
   fetch_page_zero_first_and_stop.2.2.1 hhTwoPages 2 1 1 (by decide) (by decide),
   fetch_page_zero_first_and_stop.2.2.2.1 sjOnePage 2 0 0 (by decide) (by decide),
   (fetch_page_zero_first_and_stop.2.2.2.2 hhTwoPages ⟨[], 7, 2⟩ ⟨[], 7, 2⟩ 2
      rfl rfl rfl rfl (by decide)).1⟩

/-- Claim C6, counterexample: against a superjob.ru endpoint that declares
zero total matches but always answers `more = true`, the fetcher is still
requesting pages after 1000 requests — there is no hard page-count ceiling
bounding the loop; the hh.ru fetcher likewise never stops when the declared
page count keeps growing. -/
theorem fetch_no_page_ceiling_cex :
    (fetch_sj_vacancies sjAlwaysMore 1000).2 = none ∧
    (fetch_sj_vacancies sjAlwaysMore 1000).1.length = 1000 ∧
    (fetch_hh_vacancies hhGrowing 1000).2 = none :=
  ⟨(sjAlwaysMore_never_stops 1000 0).1,
   (sjAlwaysMore_never_stops 1000 0).2,
   (hhGrowing_never_stops 1000 0).1⟩

/-- Claim C6, amended: a fetcher terminates exactly when the source
eventually signals termination (hh.ru: a page `n` with an error response or
reporting `pages <= n + 1`; superjob.ru: a page with an error response or
`more = false`), and it then requests at most pages 0..n; there is no hard
page-count ceiling — against a source that never signals termination the
loop runs as long as it is given fuel. -/
theorem fetch_termination_characterized :
    (∀ (resp : Nat → Except PyError HHPage) (n fuel : Nat),
       hhStop resp n = true → n < fuel →
       (∃ res, (fetch_hh_vacancies resp fuel).2 = some res) ∧
       (fetch_hh_vacancies resp fuel).1.length ≤ n + 1) ∧
    (∀ (resp : Nat → Except PyError SJPage) (n fuel : Nat),
       sjStop resp n = true → n < fuel →
       (∃ res, (fetch_sj_vacancies resp fuel).2 = some res) ∧
       (fetch_sj_vacancies resp fuel).1.length ≤ n + 1) ∧
    (∀ fuel : Nat, (fetch_hh_vacancies hhGrowing fuel).2 = none ∧
       (fetch_hh_vacancies hhGrowing fuel).1.length = fuel) ∧
    (∀ fuel : Nat, (fetch_sj_vacancies sjAlwaysMore fuel).2 = none ∧
       (fetch_sj_vacancies sjAlwaysMore fuel).1.length = fuel) := by
  refine ⟨?_, ?_, ?_, ?_⟩
  · intro resp n fuel hstop hn
    obtain ⟨hex, hlen⟩ :=
      fetchHHFrom_stop_terminates resp fuel 0 n hstop (Nat.zero_le n) (by omega)
    refine ⟨hex, ?_⟩
    simp only [fetch_hh_vacancies]
    omega
  · intro resp n fuel hstop hn
    obtain ⟨hex, hlen⟩ :=
      fetchSJFrom_stop_terminates resp fuel 0 n hstop (Nat.zero_le n) (by omega)
    refine ⟨hex, ?_⟩
    simp only [fetch_sj_vacancies]
    omega
  · intro fuel
    exact hhGrowing_never_stops fuel 0
  · intro fuel
    exact sjAlwaysMore_never_stops fuel 0

/-- Claim C6, witness: termination and its absence at concrete endpoints. -/
theorem fetch_termination_characterized_witness :
    ((∃ res, (fetch_hh_vacancies hhTwoPages 3).2 = some res) ∧
      (fetch_hh_vacancies hhTwoPages 3).1.length ≤ 2) ∧
    ((∃ res, (fetch_sj_vacancies sjOnePage 3).2 = some res) ∧
      (fetch_sj_vacancies sjOnePage 3).1.length ≤ 1) ∧
    (fetch_sj_vacancies sjAlwaysMore 5).2 = none :=
  ⟨fetch_termination_characterized.1 hhTwoPages 1 3 (by decide) (by decide),
   fetch_termination_characterized.2.1 sjOnePage 0 3 (by decide) (by decide),
   (fetch_termination_characterized.2.2.2 5).1⟩

/-- A yielded hh.ru pair passes the aggregator's two checks: the vacancy is
truthy and its normalized estimate is truthy (present and nonzero). -/
def hhCounted (p : Option HHVac × Int) : Bool :=
  match p.1 with
  | some v => pyTruthy (predict_rub_salary_hh v)
  | none => false

/-- The estimate a counted hh.ru pair contributes to `salaries_sum`. -/
def hhEstimateOf (p : Option HHVac × Int) : Int :=
  match p.1 with
  | some v => (predict_rub_salary_hh v).getD 0
  | none => 0

/-- A yielded superjob.ru pair passes the aggregator's two checks. -/
def sjCounted (p : Option SJVac × Int) : Bool :=
  match p.1 with
  | some v => pyTruthy (predict_rub_salary_sj v)
  | none => false

/-- The estimate a counted superjob.ru pair contributes to `salaries_sum`. -/
def sjEstimateOf (p : Option SJVac × Int) : Int :=
  match p.1 with
  | some v => (predict_rub_salary_sj v).getD 0
  | none => 0

/-- Helper: closed form of the hh.ru inner loop: it counts the pairs passing
`hhCounted`, sums their estimates, and keeps the last-seen `found` count. -/
lemma hhAccumulate_spec :
    ∀ (ys : List (Option HHVac × Int)) (p : Nat) (s c : Int),
      hhAccumulate ys p s c =
        (p + (ys.filter hhCounted).length,
         s + ((ys.filter hhCounted).map hhEstimateOf).sum,
         ys.foldl (fun _ q => q.2) c) := by
  intro ys
  induction ys with
  | nil =>
    intro p s c
    simp [hhAccumulate]
  | cons hd tl ih =>
    intro p s c
    obtain ⟨v, cnt⟩ := hd
    cases v with
    | none =>
      simp [hhAccumulate, hhCounted, ih]
    | some w =>
      by_cases hw : pyTruthy (predict_rub_salary_hh w)
      · simp [hhAccumulate, hhCounted, hhEstimateOf, hw, ih, Prod.ext_iff]
        omega
      · simp [hhAccumulate, hhCounted, hw, ih]

/-- Helper: closed form of the superjob.ru inner loop. -/
lemma sjAccumulate_spec :
    ∀ (zs : List (Option SJVac × Int)) (p : Nat) (s c : Int),
      sjAccumulate zs p s c =
        (p + (zs.filter sjCounted).length,
         s + ((zs.filter sjCounted).map sjEstimateOf).sum,
         zs.foldl (fun _ q => q.2) c) := by
  intro zs
  induction zs with
  | nil =>
    intro p s c
    simp [sjAccumulate]
  | cons hd tl ih =>
    intro p s c
    obtain ⟨v, cnt⟩ := hd
    cases v with
    | none =>
      simp [sjAccumulate, sjCounted, ih]
    | some w =>
      by_cases hw : pyTruthy (predict_rub_salary_sj w)
      · simp [sjAccumulate, sjCounted, sjEstimateOf, hw, ih, Prod.ext_iff]
        omega
      · simp [sjAccumulate, sjCounted, hw, ih]

/-- Helper: when every language's crawl finishes without transport error and
yields at least one counted listing, `get_hh_statistics` succeeds and the
rows' languages are exactly the input languages in order. -/
lemma get_hh_statistics_languages :
    ∀ (languages : List String)
      (resp : String → Nat → Except PyError HHPage) (fuel : Nat),
      (∀ l ∈ languages, ∃ ys,
         (fetchHHFrom (resp l) fuel 0).2 = some (.ok ys) ∧
         (hhAccumulate ys 0 0 0).1 ≠ 0) →
      (get_hh_statistics languages resp fuel).map
        (Except.map (List.map StatRow.language)) = some (.ok languages) := by
  intro languages
  induction languages with
  | nil =>
    intro resp fuel _
    simp [get_hh_statistics, Except.map]
  | cons l rest ih =>
    intro resp fuel hall
    obtain ⟨ys, hfetch, hne⟩ := hall l (List.mem_cons_self l rest)
    have hrest := ih resp fuel (fun x hx => hall x (List.mem_cons_of_mem l hx))
    simp only [get_hh_statistics, hfetch]
    rcases hacc : hhAccumulate ys 0 0 0 with ⟨vp, ss, vc⟩
    have hvp : vp ≠ 0 := by
      rw [hacc] at hne
      simpa using hne
    rw [if_neg hvp]
    rcases hrec : get_hh_statistics rest resp fuel with _ | res
    · rw [hrec] at hrest
      simp at hrest
    rcases res with e | rows
    · rw [hrec] at hrest
      simp [Except.map] at hrest
    · rw [hrec] at hrest
      simp [Except.map] at hrest
      simp [Except.map, hrest]

/-- Helper: the superjob.ru analogue of `get_hh_statistics_languages`. -/
lemma get_sj_statistics_languages :
    ∀ (languages : List String)
      (resp : String → Nat → Except PyError SJPage) (fuel : Nat),
      (∀ l ∈ languages, ∃ zs,
         (fetchSJFrom (resp l) fuel 0).2 = some (.ok zs) ∧
         (sjAccumulate zs 0 0 0).1 ≠ 0) →
      (get_sj_statistics languages resp fuel).map
        (Except.map (List.map StatRow.language)) = some (.ok languages) := by
  intro languages
  induction languages with
  | nil =>
    intro resp fuel _
    simp [get_sj_statistics, Except.map]
  | cons l rest ih =>
    intro resp fuel hall
    obtain ⟨zs, hfetch, hne⟩ := hall l (List.mem_cons_self l rest)
    have hrest := ih resp fuel (fun x hx => hall x (List.mem_cons_of_mem l hx))
    simp only [get_sj_statistics, hfetch]
    rcases hacc : sjAccumulate zs 0 0 0 with ⟨vp, ss, vc⟩
    have hvp : vp ≠ 0 := by
      rw [hacc] at hne
      simpa using hne
    rw [if_neg hvp]
    rcases hrec : get_sj_statistics rest resp fuel with _ | res
    · rw [hrec] at hrest
      simp at hrest
    rcases res with e | rows
    · rw [hrec] at hrest
      simp [Except.map] at hrest
    · rw [hrec] at hrest
      simp [Except.map] at hrest
      simp [Except.map, hrest]

/-- An hh.ru vacancy with matching currency and both bounds present. -/
def hhVacExample : HHVac := ⟨some ⟨"RUR", some 100000, some 300000⟩⟩

/-- An hh.ru endpoint answering every page of every language with a single
one-page answer containing `hhVacExample`. -/
def hhRespExample : String → Nat → Except PyError HHPage :=
  fun _ _ => .ok ⟨[some hhVacExample], 2, 1⟩

/-- A superjob.ru vacancy with matching currency and both bounds present. -/
def sjVacExample : SJVac := ⟨"rub", some 100000, some 300000⟩

/-- A superjob.ru endpoint answering every page of every language with a
single final page containing `sjVacExample`. -/
def sjRespExample : String → Nat → Except PyError SJPage :=
  fun _ _ => .ok ⟨[some sjVacExample], 4, false⟩

/-- An hh.ru endpoint where the crawl for `'Go'` yields one processed
listing but the crawl for any other language yields none. -/
def hhRespMixed : String → Nat → Except PyError HHPage :=
  fun lang _ =>
    if lang = "Go" then .ok ⟨[some hhVacExample], 1, 1⟩ else .ok ⟨[], 0, 1⟩

/-- Claim C7, counterexample: on input `["Go", "Python"]` against
`hhRespMixed` the claim promises two rows, one per language in order; the
code instead raises `ZeroDivisionError` while aggregating `"Python"` (whose
crawl processes nothing) and returns no rows at all. -/
theorem statistics_rows_zero_language_cex :
    get_hh_statistics ["Go", "Python"] hhRespMixed 3 =
      some (.error .zeroDivisionError) := rfl

/-- Claim C7, amended: provided every language's crawl finishes within the
page budget without transport error and yields at least one counted
(truthy-estimate) listing, both statistics functions return exactly one row
per input language, in input order; a language with no counted listing
makes the whole call raise `ZeroDivisionError` instead. -/
theorem statistics_rows_match_languages
    (languages : List String)
    (hhResp : String → Nat → Except PyError HHPage)
    (sjResp : String → Nat → Except PyError SJPage) (fuel : Nat)
    (hhall : ∀ l ∈ languages, ∃ ys,
       (fetchHHFrom (hhResp l) fuel 0).2 = some (.ok ys) ∧
       (hhAccumulate ys 0 0 0).1 ≠ 0)
    (hsall : ∀ l ∈ languages, ∃ zs,
       (fetchSJFrom (sjResp l) fuel 0).2 = some (.ok zs) ∧
       (sjAccumulate zs 0 0 0).1 ≠ 0) :
    (get_hh_statistics languages hhResp fuel).map
      (Except.map (List.map StatRow.language)) = some (.ok languages) ∧
    (get_sj_statistics languages sjResp fuel).map
      (Except.map (List.map StatRow.language)) = some (.ok languages) :=
  ⟨get_hh_statistics_languages languages hhResp fuel hhall,
   get_sj_statistics_languages languages sjResp fuel hsall⟩

/-- Claim C7, witness: one row per language, in order, on a concrete
three-language input. -/
theorem statistics_rows_match_languages_witness :
    (get_hh_statistics ["Go", "Python", "C"] hhRespExample 3).map
      (Except.map (List.map StatRow.language)) =
      some (.ok ["Go", "Python", "C"]) ∧
    (get_sj_statistics ["Go", "Python", "C"] sjRespExample 3).map
      (Except.map (List.map StatRow.language)) =
      some (.ok ["Go", "Python", "C"]) :=
  statistics_rows_match_languages ["Go", "Python", "C"] hhRespExample
    sjRespExample 3
    (fun l _ => ⟨[(some hhVacExample, 2)], rfl, by decide⟩)
    (fun l _ => ⟨[(some sjVacExample, 4)], rfl, by decide⟩)

/-- A superjob.ru vacancy whose normalized estimate is present but equals 0:
currency `'rub'`, `payment_from = 0` (falsy), `payment_to = 1`, so the
estimate is `int(1 * 0.8) = 0`. -/
def sjZeroEstimate : SJVac := ⟨"rub", some 0, some 1⟩

/-- Claim C8, counterexample: the normalizer returns a present value (0)
for `sjZeroEstimate`, so the claim counts the listing as processed; the
aggregator's `if approximate_rub_salary:` truthiness test drops it and
leaves `vacancies_processed` at 0. -/
theorem processed_drops_present_zero_cex :
    predict_rub_salary_sj sjZeroEstimate = some 0 ∧
    (predict_rub_salary_sj sjZeroEstimate).isSome = true ∧
    (sjAccumulate [(some sjZeroEstimate, 5)] 0 0 0).1 = 0 := by
  refine ⟨by decide, by decide, by decide⟩

/-- Claim C8, amended: `vacancies_processed` equals the number of yielded
listings that are truthy and whose normalized estimate is present and
nonzero (a present estimate of 0 is dropped by the truthiness test), and
`salaries_sum` is the sum of those estimates; whenever the count is nonzero
the emitted row's `average_rub_salary` is the truncated quotient
`salaries_sum / vacancies_processed` (and its `vacancy_count` the last-seen
`found`/`total`). -/
theorem accumulate_counts_truthy_estimates
    (ys : List (Option HHVac × Int)) (zs : List (Option SJVac × Int))
    (language : String)
    (hhResp : String → Nat → Except PyError HHPage)
    (sjResp : String → Nat → Except PyError SJPage) (fuel : Nat) :
    (hhAccumulate ys 0 0 0).1 = (ys.filter hhCounted).length ∧
    (hhAccumulate ys 0 0 0).2.1 =
      ((ys.filter hhCounted).map hhEstimateOf).sum ∧
    (sjAccumulate zs 0 0 0).1 = (zs.filter sjCounted).length ∧
    (sjAccumulate zs 0 0 0).2.1 =
      ((zs.filter sjCounted).map sjEstimateOf).sum ∧
    ((fetchHHFrom (hhResp language) fuel 0).2 = some (.ok ys) →
      (hhAccumulate ys 0 0 0).1 ≠ 0 →
      get_hh_statistics [language] hhResp fuel = some (.ok
        [⟨language, (hhAccumulate ys 0 0 0).2.2, (hhAccumulate ys 0 0 0).1,
          Int.tdiv (hhAccumulate ys 0 0 0).2.1
            ((hhAccumulate ys 0 0 0).1 : Int)⟩])) ∧
    ((fetchSJFrom (sjResp language) fuel 0).2 = some (.ok zs) →
      (sjAccumulate zs 0 0 0).1 ≠ 0 →
      get_sj_statistics [language] sjResp fuel = some (.ok
        [⟨language, (sjAccumulate zs 0 0 0).2.2, (sjAccumulate zs 0 0 0).1,
          Int.tdiv (sjAccumulate zs 0 0 0).2.1
            ((sjAccumulate zs 0 0 0).1 : Int)⟩])) := by
  refine ⟨?_, ?_, ?_, ?_, ?_, ?_⟩
  · simp [hhAccumulate_spec]
  · simp [hhAccumulate_spec]
  · simp [sjAccumulate_spec]
  · simp [sjAccumulate_spec]
  · intro hfetch hne
    simp only [get_hh_statistics, hfetch]
    rcases hacc : hhAccumulate ys 0 0 0 with ⟨vp, ss, vc⟩
    have hvp : vp ≠ 0 := by
      rw [hacc] at hne
      simpa using hne
    rw [if_neg hvp]
  · intro hfetch hne
    simp only [get_sj_statistics, hfetch]
    rcases hacc : sjAccumulate zs 0 0 0 with ⟨vp, ss, vc⟩
    have hvp : vp ≠ 0 := by
      rw [hacc] at hne
      simpa using hne
    rw [if_neg hvp]

/-- Claim C8, witness: the count/sum/average equations at the spec's example
(two bounds 100000 and 300000, estimate 200000, one processed listing,
average 200000). -/
theorem accumulate_counts_truthy_estimates_witness :
    (hhAccumulate [(some hhVacExample, 2)] 0 0 0).1 =
      ([(some hhVacExample, (2 : Int))].filter hhCounted).length ∧
    get_hh_statistics ["Go"] hhRespExample 3 = some (.ok
      [⟨"Go", (hhAccumulate [(some hhVacExample, 2)] 0 0 0).2.2,
        (hhAccumulate [(some hhVacExample, 2)] 0 0 0).1,
        Int.tdiv (hhAccumulate [(some hhVacExample, 2)] 0 0 0).2.1
          ((hhAccumulate [(some hhVacExample, 2)] 0 0 0).1 : Int)⟩]) ∧
    get_sj_statistics ["Go"] sjRespExample 3 = some (.ok
      [⟨"Go", (sjAccumulate [(some sjVacExample, 4)] 0 0 0).2.2,
        (sjAccumulate [(some sjVacExample, 4)] 0 0 0).1,
        Int.tdiv (sjAccumulate [(some sjVacExample, 4)] 0 0 0).2.1
          ((sjAccumulate [(some sjVacExample, 4)] 0 0 0).1 : Int)⟩]) :=
  ⟨(accumulate_counts_truthy_estimates [(some hhVacExample, 2)]
      [(some sjVacExample, 4)] "Go" hhRespExample sjRespExample 3).1,
   (accumulate_counts_truthy_estimates [(some hhVacExample, 2)]
      [(some sjVacExample, 4)] "Go" hhRespExample sjRespExample 3).2.2.2.2.1
      rfl (by decide),
   (accumulate_counts_truthy_estimates [(some hhVacExample, 2)]
      [(some sjVacExample, 4)] "Go" hhRespExample sjRespExample 3).2.2.2.2.2
      rfl (by decide)⟩

/-- Claim C9, counterexample: a malformed response body on the very first
page aborts the run before any report is printed and logs one error — but
the process exits with code 0, not the claimed distinguished non-zero code:
the JSON decode error is not a `requests.exceptions.HTTPError`, so it
escapes the `except` clause and is swallowed by `@logger.catch`. -/
theorem malformed_body_exit_zero_cex :
    main_run (fun _ _ => .error .jsonDecodeError)
      (fun _ _ => .ok ⟨[], 0, false⟩) 3 = some ⟨false, 1, 0⟩ := rfl

/-- Claim C9, amended: any transport error on any page for any language
aborts the run before any report is printed (for either source) and logs a
single error message; the exit code is the distinguished 1 only for a
non-success HTTP status (`HTTPError`, the sole exception the `except`
clause catches) — for a malformed response body the logger decorator
suppresses the exception and the process exits 0.  A page-level error is
propagated unchanged by the statistics functions. -/
theorem transport_error_outcomes
    (hhResp : String → Nat → Except PyError HHPage)
    (sjResp : String → Nat → Except PyError SJPage) (fuel : Nat) :
    (∀ e : PyError,
       get_hh_statistics programming_languages hhResp fuel =
         some (.error e) →
       main_run hhResp sjResp fuel =
         some ⟨false, 1, if e = .httpError then 1 else 0⟩) ∧
    (∀ (rows : List StatRow) (e : PyError),
       get_hh_statistics programming_languages hhResp fuel =
         some (.ok rows) →
       get_sj_statistics programming_languages sjResp fuel =
         some (.error e) →
       main_run hhResp sjResp fuel =
         some ⟨false, 1, if e = .httpError then 1 else 0⟩) ∧
    (∀ (rows1 rows2 : List StatRow),
       get_hh_statistics programming_languages hhResp fuel =
         some (.ok rows1) →
       get_sj_statistics programming_languages sjResp fuel =
         some (.ok rows2) →
       main_run hhResp sjResp fuel = some ⟨true, 0, 0⟩) ∧
    (∀ (l : String) (rest : List String) (e : PyError)
       (resp : String → Nat → Except PyError HHPage),
       (fetchHHFrom (resp l) fuel 0).2 = some (.error e) →
       get_hh_statistics (l :: rest) resp fuel = some (.error e)) := by
  refine ⟨?_, ?_, ?_, ?_⟩
  · intro e h
    simp only [main_run, h]
    cases e <;> rfl
  · intro rows e h1 h2
    simp only [main_run, h1, h2]
    cases e <;> rfl
  · intro rows1 rows2 h1 h2
    simp only [main_run, h1, h2]
  · intro l rest e resp hfetch
    simp only [get_hh_statistics, hfetch]

/-- Claim C9, witness: a failing HTTP status on the first hh.ru page gives
no report, one logged error and exit code 1; two clean crawls give the
printed reports and exit code 0. -/
theorem transport_error_outcomes_witness :
    main_run (fun _ _ => .error .httpError) sjRespExample 3 =
      some ⟨false, 1,
        if PyError.httpError = PyError.httpError then 1 else 0⟩ ∧
    main_run hhRespExample sjRespExample 3 = some ⟨true, 0, 0⟩ :=
  ⟨(transport_error_outcomes (fun _ _ => .error .httpError)
      sjRespExample 3).1 .httpError rfl,
   (transport_error_outcomes hhRespExample sjRespExample 3).2.2.1
      (programming_languages.map (fun l => ⟨l, 2, 1, 200000⟩))
      (programming_languages.map (fun l => ⟨l, 4, 1, 200000⟩)) rfl rfl⟩
